import Mathlib

/-!
Verification of the internships-bot change-detection and notification engine.

The definitions below are a shallow embedding of the Python sources
`mainbot.py` and `fetch_latest_data.py`:

* `PyVal`, `_is_value_truthy` — the loosely-typed field values and the
  truthiness coercion (`mainbot.py`, `_is_value_truthy`).
* `Role` — one listing record (a Python dict); absent keys are `Option.none`.
* `get_term_emoji_and_string`, `format_message`, `format_deactivation_message`,
  `format_reactivation_message` — the message formatters.  The impure
  `datetime.now().strftime` is passed in as an explicit `dateStr` argument.
* `process_repo_diff` — the classification loop at the top of
  `process_repo_updates`.
* `send_discord_message_model` — the per-destination failure tracking in
  `send_discord_message` (counter map, failed set, finally-block threshold
  check), with the transport outcome passed in as `SendOutcome`.
* `DispatchEvent` traces — the order of `loop.create_task` spawns,
  `asyncio.gather` joins, and the snapshot write inside
  `process_repo_updates` and `send_messages_to_all_configured_channels`.
* `save_json_data` / `mainbot_persist` — the two snapshot write paths
  (`fetch_latest_data.py` with backup-rename, `process_repo_updates` without),
  over an explicit file-system state; `writeOk = false` models an I/O error
  raised by `json.dump` after `open(..., 'w')` has already truncated the file.
* `scheduler_step` — the cycle guard in `combined_scheduled_task` and
  `try_start_scheduled_task` as a step function on an explicit state, with the
  guard check-and-set atomic (there is no `await` between the check and the
  assignment in the cooperative asyncio loop).
-/

/-- A loosely-typed Python value as found in the listing JSON. -/
inductive PyVal where
  | none
  | bool (b : Bool)
  | str (s : String)
  | list (xs : List String)
  | int (n : Int)
deriving DecidableEq

/-- Lowercasing a string character by character, modelling Python `str.lower()`
on the ASCII data appearing in the feeds. -/
def pyLower (s : String) : String :=
  ⟨s.data.map Char.toLower⟩

/-- Is `p` a leading segment of `l`?  Models Python `str.startswith` at the
character-list level. -/
def isLeadingSeg : List Char → List Char → Bool
  | [], _ => true
  | _ :: _, [] => false
  | a :: as, b :: bs => if a = b then isLeadingSeg as bs else false

/-- Does `needle` occur contiguously inside `hay`?  Models Python
`needle in hay` on strings, at the character-list level. -/
def occursIn (needle : List Char) : List Char → Bool
  | [] => needle.isEmpty
  | c :: rest => isLeadingSeg needle (c :: rest) || occursIn needle rest

/-- Python `sub in s` for strings. -/
def pyContains (hay sub : String) : Bool :=
  occursIn sub.data hay.data

/-- Python `s.startswith(p)`. -/
def pyStartsWith (s p : String) : Bool :=
  isLeadingSeg p.data s.data

/-- Python `bool(s.strip())`: does the string contain a non-whitespace
character? -/
def pyStripTruthy (s : String) : Bool :=
  s.data.any (fun c => !c.isWhitespace)

/-- Python `sep.join(xs)`. -/
def pyJoin (sep : String) : List String → String
  | [] => ""
  | [x] => x
  | x :: y :: xs => x ++ sep ++ pyJoin sep (y :: xs)

/-- `_is_value_truthy` from `mainbot.py`: a string is truthy iff it equals
"true" case-insensitively; any other value uses Python truthiness. -/
def _is_value_truthy : PyVal → Bool
  | PyVal.str s => pyLower s == "true"
  | PyVal.none => false
  | PyVal.bool b => b
  | PyVal.list xs => !xs.isEmpty
  | PyVal.int n => n != 0

/-- Python truthiness of `dict.get(key)`: `None` (absent key) is falsy. -/
def optTruthy : Option PyVal → Bool
  | some v => _is_value_truthy v
  | Option.none => false

/-- One listing record, i.e. one JSON object of a feed.  A field whose key is
absent from the dict is `Option.none`. -/
structure Role where
  id : Option PyVal := Option.none
  active : Option PyVal := Option.none
  is_visible : Option PyVal := Option.none
  company_name : Option String := Option.none
  title : Option String := Option.none
  url : Option String := Option.none
  locations : Option (List String) := Option.none
  sponsorship : Option String := Option.none
  season : Option PyVal := Option.none
  terms : Option PyVal := Option.none
deriving DecidableEq

/-- `MAX_RETRIES` from `mainbot.py`. -/
def MAX_RETRIES : Nat := 3

def EMOJI_NEW : String := "✨"

def EMOJI_DEACTIVATED : String := "📉"

def EMOJI_REACTIVATED : String := "📈"

def EMOJI_SUMMER : String := "☀️"

def EMOJI_WINTER : String := "❄️"

def EMOJI_FALL : String := "🍂"

def EMOJI_UNKNOWN_TERM : String := "❓"

/-- The season/terms resolution branch of `get_term_emoji_and_string`:
prefer `season` over `terms`; a non-empty list is joined with ", ", a string
with non-whitespace content is kept, anything else leaves "Unknown". -/
def resolve_season_str (raw_season raw_terms : Option PyVal) : String :=
  if optTruthy raw_season then
    match raw_season with
    | some (PyVal.list xs) => if !xs.isEmpty then pyJoin ", " xs else "Unknown"
    | some (PyVal.str s) => if pyStripTruthy s then s else "Unknown"
    | _ => "Unknown"
  else if optTruthy raw_terms then
    match raw_terms with
    | some (PyVal.list xs) => if !xs.isEmpty then pyJoin ", " xs else "Unknown"
    | some (PyVal.str s) => if pyStripTruthy s then s else "Unknown"
    | _ => "Unknown"
  else "Unknown"

/-- The emoji-collection half of `get_term_emoji_and_string`, as a function
of the resolved season string: append a summer marker for "summer"/"spring",
a winter marker for "winter", a fall marker for "fall"/"autumn", in that
order; an empty or "Unknown" season string, or one matching no keyword,
yields the unknown-term marker. -/
def term_emoji_from (season_str : String) : String × String :=
  if season_str == "" || season_str == "Unknown" then
    (EMOJI_UNKNOWN_TERM, "Unknown")
  else
    let season_lower := pyLower season_str
    let collected_emojis :=
      (if pyContains season_lower "summer" || pyContains season_lower "spring" then
        [EMOJI_SUMMER] else [])
      ++ (if pyContains season_lower "winter" then [EMOJI_WINTER] else [])
      ++ (if pyContains season_lower "fall" || pyContains season_lower "autumn" then
        [EMOJI_FALL] else [])
    if collected_emojis.isEmpty then
      (EMOJI_UNKNOWN_TERM, season_str)
    else
      (pyJoin "" collected_emojis, season_str)

/-- `get_term_emoji_and_string` from `mainbot.py`: returns
(emoji string, season string). -/
def get_term_emoji_and_string (role_data : Role) : String × String :=
  term_emoji_from (resolve_season_str role_data.season role_data.terms)

/-- `BIG_TECH_COMPANIES` from `mainbot.py`; the entry "x" is matched by
`startswith` only. -/
def BIG_TECH_COMPANIES : List String :=
  ["openai", "anthropic", "google", "nvidia", "bloomberg", "snap",
   "meta", "apple", "amazon", "microsoft", "netflix", "tesla", "databricks",
   "figma", "roblox",
   "square", "block", "stripe", "airbnb", "uber", "lyft", "doordash",
   "instacart", "palantir",
   "snowflake", "salesforce", "oracle", "sap", "adobe", "intel", "amd",
   "qualcomm", "texas instruments", "cisco", "dell", "hp", "atlassian", "zoom",
   "workday", "servicenow", "twilio", "shopify", "spotify", "pinterest",
   "twitter",
   "linkedin", "github", "robinhood", "coinbase", "jane street",
   "hudson river trading",
   "citadel", "two sigma", "jump trading", "drw", "akamai", "cloudflare",
   "mongodb",
   "splunk", "reddit", "discord", "tiktok", "bytedance", "waymo", "heygen",
   "waabi", "mistral", "perplexity",
   "point72", "optiver", "imc trading", "tencent", "samsung",
   "tower research", "rippling", "cohere", "talos trading",
   "kalshi", "neo", "capital one", "datadog", "ramp", "notion", "five rings",
   "epic games", "riot games",
   "sony",
   "x"]

/-- The watch-list loop shared by `format_message` and
`format_reactivation_message`: iterate over the list of companies, breaking on
the first match; the entry "x" matches only when the lowercased company name
starts with "x", every other entry by substring containment in the lowercased
company name. -/
def big_tech_loop (company_name_str : String) : List String → Bool
  | [] => false
  | company :: rest =>
    if pyLower company == "x" then
      if pyStartsWith (pyLower company_name_str) "x" then true
      else big_tech_loop company_name_str rest
    else if pyContains (pyLower company_name_str) (pyLower company) then true
    else big_tech_loop company_name_str rest

/-- The `should_ping` computation over the full `BIG_TECH_COMPANIES` list. -/
def big_tech_should_ping (company_name_str : String) : Bool :=
  big_tech_loop company_name_str BIG_TECH_COMPANIES

/-- The mention policy described by the specification: some watch-list entry
matches, where "x" matches only by case-insensitive prefix and every other
entry by case-insensitive substring containment. -/
def mention_policy_spec (company_name_str : String) : Bool :=
  BIG_TECH_COMPANIES.any (fun company =>
    if pyLower company == "x" then pyStartsWith (pyLower company_name_str) "x"
    else pyContains (pyLower company_name_str) (pyLower company))

/-- The ping token `f"<@&{ping_role_id}> "`. -/
def ping_token (ping_role_id : Nat) : String :=
  "<@&" ++ toString ping_role_id ++ "> "

/-- The `ping_str` computed in `format_message`: empty unless the guild has a
truthy configured ping role and the watch-list matches. -/
def format_message_ping_str (company_name_str : String) (guild_id : Nat)
    (guild_ping_roles : List (Nat × Nat)) : String :=
  match List.lookup guild_id guild_ping_roles with
  | some ping_role_id =>
    if ping_role_id ≠ 0 then
      if big_tech_should_ping company_name_str then ping_token ping_role_id
      else ""
    else ""
  | Option.none => ""

/-- The `should_ping` computation in `format_reactivation_message`: forced by
"winter 2026" occurring in the lowercased term string, otherwise the same
watch-list loop. -/
def reactivation_should_ping (company_name_str term_str : String) : Bool :=
  (if pyContains (pyLower term_str) "winter 2026" then true else false)
  || big_tech_should_ping company_name_str

/-- The `ping_str` computed in `format_reactivation_message`. -/
def reactivation_ping_str (company_name_str term_str : String) (guild_id : Nat)
    (guild_ping_roles : List (Nat × Nat)) : String :=
  match List.lookup guild_id guild_ping_roles with
  | some ping_role_id =>
    if ping_role_id ≠ 0 then
      if reactivation_should_ping company_name_str term_str then
        ping_token ping_role_id
      else ""
    else ""
  | Option.none => ""

/-- `format_message` from `mainbot.py` (for New events); `dateStr` stands for
`datetime.now().strftime` which is read from the environment. -/
def format_message (role : Role) (guild_id : Nat)
    (guild_ping_roles : List (Nat × Nat)) (dateStr : String) : String :=
  let company_name_str := role.company_name.getD "N/A Company"
  let title_str := role.title.getD "N/A Title"
  let url_str := role.url.getD "#"
  let location_str :=
    match role.locations with
    | some ls => if !ls.isEmpty then pyJoin ", " ls else "Not specified"
    | Option.none => "Not specified"
  let sponsorship_str := role.sponsorship.getD "Not specified"
  let p := get_term_emoji_and_string role
  let term_emoji := p.1
  let term_str := p.2
  if term_str == "Unknown" && url_str != "#" then
    EMOJI_NEW ++ " **" ++ company_name_str ++ "** - " ++ title_str
      ++ "\nTerm: " ++ term_emoji ++ " " ++ term_str
      ++ ". Review details: <" ++ url_str ++ ">"
  else if term_str == "Unknown" then
    EMOJI_NEW ++ " **" ++ company_name_str ++ "** - " ++ title_str
      ++ "\nTerm: " ++ term_emoji ++ " " ++ term_str
      ++ ". More details unavailable."
  else
    let ping_str := format_message_ping_str company_name_str guild_id guild_ping_roles
    EMOJI_NEW ++ " **" ++ company_name_str
      ++ "** just posted a new internship! " ++ ping_str
      ++ "\n[" ++ title_str ++ "](" ++ url_str ++ ")"
      ++ "\n**Location(s):** " ++ location_str
      ++ "\n**Term:** " ++ term_emoji ++ " " ++ term_str
      ++ "\n**Sponsorship:** `" ++ sponsorship_str ++ "`"
      ++ "\n**Posted:** " ++ dateStr

/-- `format_deactivation_message` from `mainbot.py`: it takes no guild or
ping-role input at all. -/
def format_deactivation_message (role : Role) (dateStr : String) : String :=
  let company_name_str := role.company_name.getD "N/A Company"
  let title_str := role.title.getD "N/A Title"
  let url_str := role.url.getD "#"
  let p := get_term_emoji_and_string role
  EMOJI_DEACTIVATED ++ " **" ++ company_name_str
    ++ "** internship is no longer active."
    ++ "\n[" ++ title_str ++ "](" ++ url_str ++ ") - Term: " ++ p.1 ++ " " ++ p.2
    ++ "\nDeactivated: " ++ dateStr

/-- `format_reactivation_message` from `mainbot.py`. -/
def format_reactivation_message (role : Role) (guild_id : Nat)
    (guild_ping_roles : List (Nat × Nat)) (dateStr : String) : String :=
  let company_name_str := role.company_name.getD "N/A Company"
  let title_str := role.title.getD "N/A Title"
  let url_str := role.url.getD "#"
  let p := get_term_emoji_and_string role
  let term_emoji := p.1
  let term_str := p.2
  let ping_str := reactivation_ping_str company_name_str term_str guild_id guild_ping_roles
  EMOJI_REACTIVATED ++ " " ++ ping_str ++ "**" ++ company_name_str
    ++ "** internship is active again!"
    ++ "\n[" ++ title_str ++ "](" ++ url_str ++ ") - Term: "
    ++ term_emoji ++ " " ++ term_str
    ++ "\nReactivated: " ++ dateStr

/-- The identifier under which a record enters the old-roles dict: present and
not `None` (`'id' in role and role['id'] is not None`). -/
def roleIdVal (r : Role) : Option PyVal :=
  match r.id with
  | some v => if v = PyVal.none then Option.none else some v
  | Option.none => Option.none

/-- Lookup in `{role['id']: role for role in old_data if 'id' in role and
role['id'] is not None}`: a later record with the same identifier overrides an
earlier one (Python dict comprehension semantics). -/
def old_roles_lookup : List Role → PyVal → Option Role
  | [], _ => Option.none
  | r :: rest, k =>
    match old_roles_lookup rest k with
    | some x => some x
    | Option.none =>
      match roleIdVal r with
      | some v => if v = k then some r else Option.none
      | Option.none => Option.none

/-- `_is_value_truthy(role.get('active', True))`. -/
def role_is_active (r : Role) : Bool :=
  _is_value_truthy (r.active.getD (PyVal.bool true))

/-- `_is_value_truthy(role.get('is_visible', True))`. -/
def role_is_visible (r : Role) : Bool :=
  _is_value_truthy (r.is_visible.getD (PyVal.bool true))

/-- The three transition lists accumulated by `process_repo_updates`. -/
structure DiffResult where
  new_roles : List Role
  deactivated_roles : List Role
  reactivated_roles : List Role
deriving DecidableEq

/-- The classification loop of `process_repo_updates`, iterating over
`new_data` in input order against a fixed old snapshot. -/
def process_repo_diff_loop (old_data : List Role) (is_second_repo : Bool) :
    List Role → DiffResult
  | [] => ⟨[], [], []⟩
  | new_role :: rest =>
    let res := process_repo_diff_loop old_data is_second_repo rest
    match roleIdVal new_role with
    | Option.none => res
    | some idv =>
      let new_role_is_active := role_is_active new_role
      let new_role_is_visible := role_is_visible new_role
      match old_roles_lookup old_data idv with
      | some old_role =>
        let old_role_is_active := role_is_active old_role
        if old_role_is_active && !new_role_is_active then
          { res with deactivated_roles := new_role :: res.deactivated_roles }
        else if is_second_repo && !old_role_is_active && new_role_is_active
            && new_role_is_visible then
          { res with reactivated_roles := new_role :: res.reactivated_roles }
        else res
      | Option.none =>
        if new_role_is_visible && new_role_is_active then
          { res with new_roles := new_role :: res.new_roles }
        else res

/-- The pure diff computed by `process_repo_updates` before dispatching. -/
def process_repo_diff (new_data old_data : List Role) (is_second_repo : Bool) :
    DiffResult :=
  process_repo_diff_loop old_data is_second_repo new_data

/-- The composite destination key `f"{guild_id}:{channel_id}"`. -/
def channelKey (guild_id channel_id : Nat) : String :=
  toString guild_id ++ ":" ++ toString channel_id

/-- The destinations surviving the `failed_channels` filter. -/
def activeChannels (channel_configs : List (Nat × Nat))
    (failed_channels : List String) : List (Nat × Nat) :=
  channel_configs.filter (fun p => !failed_channels.contains (channelKey p.1 p.2))

/-- One observable step of the dispatch phase: spawning an un-awaited task for
a single send (`loop.create_task(send_discord_message ...)`), spawning an
un-awaited fan-out task
(`loop.create_task(send_messages_to_all_configured_channels ...)`), awaiting
all previously issued sends (`await asyncio.gather(*tasks)`), or writing the
snapshot file. -/
inductive DispatchEvent where
  | spawnSend (guild_id channel_id : Nat) (msg : String)
  | spawnFanout (msg : String)
  | gatherJoin
  | persist
deriving DecidableEq

/-- The event sequence of `send_messages_to_all_configured_channels`: return
early when nothing is configured, otherwise build one task per non-failed
destination and `await asyncio.gather` over them when non-empty. -/
def send_messages_to_all_trace (message : String)
    (channel_configs : List (Nat × Nat)) (failed_channels : List String) :
    List DispatchEvent :=
  if channel_configs = [] then []
  else
    let tasks := (activeChannels channel_configs failed_channels).map
      (fun p => DispatchEvent.spawnSend p.1 p.2 message)
    if tasks = [] then [] else tasks ++ [DispatchEvent.gatherJoin]

/-- The event sequence of the dispatch-and-persist phase of
`process_repo_updates`: per new role one un-awaited send task per non-failed
destination, per deactivated role one un-awaited fan-out task, per reactivated
role (second repo only) one un-awaited send task per non-failed destination,
and finally the snapshot write — with no `await` of any spawned task in
between. -/
def process_repo_updates_trace (d : DiffResult)
    (channel_configs : List (Nat × Nat)) (failed_channels : List String)
    (guild_ping_roles : List (Nat × Nat)) (dateStr : String)
    (is_second_repo : Bool) : List DispatchEvent :=
  (d.new_roles.map (fun role =>
    (activeChannels channel_configs failed_channels).map (fun p =>
      DispatchEvent.spawnSend p.1 p.2
        (format_message role p.1 guild_ping_roles dateStr)))).flatten
  ++ d.deactivated_roles.map (fun role =>
    DispatchEvent.spawnFanout (format_deactivation_message role dateStr))
  ++ (if is_second_repo then
      (d.reactivated_roles.map (fun role =>
        (activeChannels channel_configs failed_channels).map (fun p =>
          DispatchEvent.spawnSend p.1 p.2
            (format_reactivation_message role p.1 guild_ping_roles dateStr)))).flatten
    else [])
  ++ [DispatchEvent.persist]

/-- Fold tracking how many spawned send tasks are still un-awaited: a spawn
adds one pending task, a gather awaits every task issued so far, the snapshot
write leaves the count unchanged. -/
def pendingAfter : Nat → List DispatchEvent → Nat
  | n, [] => n
  | n, DispatchEvent.spawnSend _ _ _ :: tr => pendingAfter (n + 1) tr
  | n, DispatchEvent.spawnFanout _ :: tr => pendingAfter (n + 1) tr
  | _, DispatchEvent.gatherJoin :: tr => pendingAfter 0 tr
  | n, DispatchEvent.persist :: tr => pendingAfter n tr

/-- Every spawned task has been awaited by the time the trace ends. -/
def allSpawnsJoined (tr : List DispatchEvent) : Bool :=
  pendingAfter 0 tr == 0

/-- At every snapshot write in the trace, no spawned task is still pending:
every send issued so far has been awaited before the file is overwritten. -/
def joinedBeforePersist : Nat → List DispatchEvent → Bool
  | _, [] => true
  | n, DispatchEvent.spawnSend _ _ _ :: tr => joinedBeforePersist (n + 1) tr
  | n, DispatchEvent.spawnFanout _ :: tr => joinedBeforePersist (n + 1) tr
  | _, DispatchEvent.gatherJoin :: tr => joinedBeforePersist 0 tr
  | n, DispatchEvent.persist :: tr => n == 0 && joinedBeforePersist n tr

/-- The trace contains no `await asyncio.gather` at all. -/
def noJoinEvent (tr : List DispatchEvent) : Bool :=
  tr.all (fun e => e ≠ DispatchEvent.gatherJoin)

/-- State of one feed's snapshot file on disk together with its `.backup`
sibling. -/
inductive FileState where
  | absent
  | content (data : List Role)
  | corrupt
deriving DecidableEq

/-- The snapshot file and its `.backup` file. -/
structure FeedFiles where
  main : FileState
  backup : FileState
deriving DecidableEq

/-- `save_json_data` from `fetch_latest_data.py`: rename an existing file
aside as `.backup`, write the new file, and on a write error restore the
backup when one exists.  `writeOk = false` models `json.dump` raising after
`open(..., 'w')` truncated the target. -/
def save_json_data (data : List Role) (writeOk : Bool) (files : FeedFiles) :
    FeedFiles × Bool :=
  let files1 :=
    if files.main ≠ FileState.absent then
      { main := FileState.absent, backup := files.main }
    else files
  if writeOk then ({ files1 with main := FileState.content data }, true)
  else
    let files2 := { files1 with main := FileState.corrupt }
    if files2.backup ≠ FileState.absent then
      ({ main := files2.backup, backup := FileState.absent }, false)
    else (files2, false)

/-- The snapshot write at the end of `process_repo_updates`: open the file
with mode 'w' (truncating it) and dump the new data; an `IOError` is only
logged, leaving a truncated file and touching no backup. -/
def mainbot_persist (data : List Role) (writeOk : Bool) (files : FeedFiles) :
    FeedFiles :=
  if writeOk then { files with main := FileState.content data }
  else { files with main := FileState.corrupt }

/-- The result of the external fetch: a parsed list, an HTTP error, a JSON
parse error, or any other failure (`fetch_json_from_url`). -/
inductive FetchResult where
  | ok (data : List Role)
  | httpError
  | parseError
  | exn
deriving DecidableEq

/-- `fetch_json_from_url` maps every failure to the empty list. -/
def fetch_json_value : FetchResult → List Role
  | FetchResult.ok data => data
  | FetchResult.httpError => []
  | FetchResult.parseError => []
  | FetchResult.exn => []

/-- Reading the stored snapshot in `combined_scheduled_task`: a missing or
undecodable file yields the empty list ("Starting fresh"). -/
def read_stored_snapshot : FileState → List Role
  | FileState.content data => data
  | FileState.absent => []
  | FileState.corrupt => []

/-- Observable outcome of `process_repo_updates` for one feed: the dispatch
event sequence and the file state afterwards. -/
structure FeedStepResult where
  files : FeedFiles
  trace : List DispatchEvent
deriving DecidableEq

/-- `process_repo_updates` from `mainbot.py`: classify, spawn the
fire-and-forget dispatch tasks, then write the snapshot file unconditionally. -/
def process_repo_updates_model (new_data old_data : List Role)
    (is_second_repo : Bool) (channel_configs : List (Nat × Nat))
    (failed_channels : List String) (guild_ping_roles : List (Nat × Nat))
    (dateStr : String) (writeOk : Bool) (files : FeedFiles) : FeedStepResult :=
  let d := process_repo_diff new_data old_data is_second_repo
  ⟨mainbot_persist new_data writeOk files,
   process_repo_updates_trace d channel_configs failed_channels
     guild_ping_roles dateStr is_second_repo⟩

/-- The per-feed body of `combined_scheduled_task`: fetch, and only when the
result is a non-empty list read the stored snapshot and run
`process_repo_updates`; otherwise the feed is skipped for this cycle. -/
def combined_task_feed_step (fr : FetchResult) (files : FeedFiles)
    (is_second_repo : Bool) (channel_configs : List (Nat × Nat))
    (failed_channels : List String) (guild_ping_roles : List (Nat × Nat))
    (dateStr : String) (writeOk : Bool) : FeedStepResult :=
  let new_data := fetch_json_value fr
  if new_data ≠ [] then
    let old_data := read_stored_snapshot files.main
    process_repo_updates_model new_data old_data is_second_repo
      channel_configs failed_channels guild_ping_roles dateStr writeOk files
  else ⟨files, []⟩

/-- In-memory destination health: `channel_failure_counts` and
`failed_channels` from `mainbot.py`. -/
structure ChannelHealthState where
  channel_failure_counts : List (String × Nat)
  failed_channels : List String
deriving DecidableEq

/-- `channel_failure_counts.get(key, 0)`. -/
def countsGet : List (String × Nat) → String → Nat
  | [], _ => 0
  | p :: rest, k => if p.1 = k then p.2 else countsGet rest k

/-- `channel_failure_counts[key] = v`. -/
def countsSet : List (String × Nat) → String → Nat → List (String × Nat)
  | [], k, v => [(k, v)]
  | p :: rest, k, v =>
    if p.1 = k then (k, v) :: rest else p :: countsSet rest k v

/-- `del channel_failure_counts[key]`. -/
def countsDel (m : List (String × Nat)) (k : String) : List (String × Nat) :=
  m.filter (fun p => p.1 ≠ k)

/-- `key in s` for the failed-channels set. -/
def setMem : List String → String → Bool
  | [], _ => false
  | x :: rest, k => if x = k then true else setMem rest k

/-- `s.add(key)`. -/
def setAdd (s : List String) (k : String) : List String :=
  if setMem s k then s else k :: s

/-- `s.remove(key)` (here: discard semantics; the code only removes after a
membership test). -/
def setRemove (s : List String) (k : String) : List String :=
  s.filter (fun x => x ≠ k)

/-- How one attempted send turns out: success, `discord.NotFound`,
`discord.Forbidden`, a target that is not a `discord.TextChannel`, or any
other exception. -/
inductive SendOutcome where
  | success
  | notFound
  | forbidden
  | notTextChannel
  | otherError
deriving DecidableEq

/-- The failure-tracking state transition of `send_discord_message`: skip
entirely when the key is already failed; otherwise update the counter and the
failed set per outcome, then run the `finally` block, which adds the key to
`failed_channels` when its counter has reached `MAX_RETRIES`. -/
def send_discord_message_model (st : ChannelHealthState) (key : String)
    (outcome : SendOutcome) : ChannelHealthState :=
  if setMem st.failed_channels key then st
  else
    let c := countsGet st.channel_failure_counts key
    let st1 :=
      match outcome with
      | SendOutcome.notTextChannel =>
        { channel_failure_counts := countsSet st.channel_failure_counts key (c + MAX_RETRIES),
          failed_channels := setAdd st.failed_channels key }
      | SendOutcome.success =>
        { channel_failure_counts := countsDel st.channel_failure_counts key,
          failed_channels := setRemove st.failed_channels key }
      | SendOutcome.notFound =>
        { st with channel_failure_counts := countsSet st.channel_failure_counts key (c + 1) }
      | SendOutcome.forbidden =>
        { st with failed_channels := setAdd st.failed_channels key }
      | SendOutcome.otherError =>
        { st with channel_failure_counts := countsSet st.channel_failure_counts key (c + 1) }
    if countsGet st1.channel_failure_counts key ≥ MAX_RETRIES then
      { st1 with failed_channels := setAdd st1.failed_channels key }
    else st1

/-- `shouldSkip`: the early return of `send_discord_message` fires iff the key
is in `failed_channels`. -/
def shouldSkip (st : ChannelHealthState) (key : String) : Bool :=
  setMem st.failed_channels key

/-- The outcomes the specification calls RetryableFailure. -/
def isRetryable : SendOutcome → Bool
  | SendOutcome.notFound => true
  | SendOutcome.otherError => true
  | _ => false

/-- The outcomes the specification calls PermanentFailure: an authorization
failure or a target that is not a valid sendable channel. -/
def isPermanent : SendOutcome → Bool
  | SendOutcome.forbidden => true
  | SendOutcome.notTextChannel => true
  | _ => false

/-- Scheduler state: the `is_task_running` guard plus an auxiliary count of
cycle bodies currently executing (for stating mutual exclusion). -/
structure SchedulerState where
  is_task_running : Bool
  active_cycles : Nat
deriving DecidableEq

/-- Events of the cooperative scheduler: a timer tick reaching the guard
check, or a cycle body finishing — normally or by an escaping exception. -/
inductive SchedulerEvent where
  | tick
  | finishOk
  | finishRaise
deriving DecidableEq

/-- A tick reaching the guard check of `try_start_scheduled_task` /
`combined_scheduled_task`: when the guard is set the tick is dropped with no
state change (nothing is queued); otherwise the guard is set and the cycle
body starts.  The check and the assignment have no `await` between them, so
they act atomically on the cooperative event loop. -/
def combined_try_start (s : SchedulerState) : SchedulerState :=
  if s.is_task_running then s
  else { is_task_running := true, active_cycles := s.active_cycles + 1 }

/-- A cycle body finishing: both the `except` branch and the `finally` block
of `combined_scheduled_task` set `is_task_running = False`, so the guard is
cleared whether the body completed or raised. -/
def combined_finish (s : SchedulerState) : SchedulerState :=
  { is_task_running := false, active_cycles := s.active_cycles - 1 }

/-- One scheduler step. -/
def scheduler_step (s : SchedulerState) : SchedulerEvent → SchedulerState
  | SchedulerEvent.tick => combined_try_start s
  | SchedulerEvent.finishOk => combined_finish s
  | SchedulerEvent.finishRaise => combined_finish s

/-- Running the scheduler over a sequence of events. -/
def scheduler_run (s : SchedulerState) (evs : List SchedulerEvent) :
    SchedulerState :=
  evs.foldl scheduler_step s

/-- The initial scheduler state: guard clear, no cycle running. -/
def scheduler_init : SchedulerState :=
  { is_task_running := false, active_cycles := 0 }

/-- The mutual-exclusion invariant: never more than one cycle body executing,
and the guard is set exactly while one is. -/
def scheduler_inv (s : SchedulerState) : Bool :=
  s.active_cycles ≤ 1 && (s.is_task_running == decide (s.active_cycles = 1))

def validIds (l : List Role) : List PyVal :=
  l.filterMap roleIdVal

theorem old_roles_lookup_mem {S : List Role} {v : PyVal} {x : Role}
    (h : old_roles_lookup S v = some x) : roleIdVal x = some v ∧ x ∈ S := by
  induction S with
  | nil => simp [old_roles_lookup] at h
  | cons r rest ih =>
    simp only [old_roles_lookup] at h
    cases hrest : old_roles_lookup rest v with
    | some y =>
      rw [hrest] at h
      obtain ⟨h1, h2⟩ := ih (hrest.trans h)
      exact ⟨h1, List.mem_cons_of_mem _ h2⟩
    | none =>
      rw [hrest] at h
      cases hid : roleIdVal r with
      | some w =>
        rw [hid] at h
        by_cases hw : w = v
        · simp [hw] at h
          subst h
          exact ⟨hid.trans (by rw [hw]), List.mem_cons_self _ _⟩
        · simp [hw] at h
      | none => rw [hid] at h; simp at h

theorem old_roles_lookup_self {S : List Role}
    (hnd : (validIds S).Nodup) :
    ∀ {r : Role} {v : PyVal}, r ∈ S → roleIdVal r = some v →
      old_roles_lookup S v = some r := by
  induction S with
  | nil => intro r v h; simp at h
  | cons s rest ih =>
    intro r v hmem hid
    have hnd' : (validIds rest).Nodup := by
      have hsub : List.Sublist (validIds rest) (validIds (s :: rest)) := by
        simp only [validIds, List.filterMap_cons]
        cases roleIdVal s
        · exact List.Sublist.refl _
        · exact List.sublist_cons_self _ _
      exact hsub.nodup hnd
    rcases List.mem_cons.mp hmem with heq | hrest
    · subst heq
      have hlook : old_roles_lookup rest v = Option.none := by
        cases hlr : old_roles_lookup rest v with
        | none => rfl
        | some x =>
          obtain ⟨hx1, hx2⟩ := old_roles_lookup_mem hlr
          have hvmem : v ∈ validIds rest :=
            List.mem_filterMap.mpr ⟨x, hx2, hx1⟩
          have heq2 : validIds (r :: rest) = v :: validIds rest := by
            simp [validIds, List.filterMap_cons, hid]
          rw [heq2] at hnd
          exact absurd hvmem (List.nodup_cons.mp hnd).1
      simp [old_roles_lookup, hlook, hid]
    · have hres := ih hnd' hrest hid
      simp [old_roles_lookup, hres]

theorem process_repo_diff_loop_self {S : List Role} {flag : Bool}
    (hnd : (validIds S).Nodup) :
    ∀ (l : List Role), (∀ r ∈ l, r ∈ S) →
      process_repo_diff_loop S flag l = ⟨[], [], []⟩ := by
  intro l
  induction l with
  | nil => intro _; rfl
  | cons r rest ih =>
    intro hsub
    have hres := ih (fun x hx => hsub x (List.mem_cons_of_mem _ hx))
    have hrS : r ∈ S := hsub r (List.mem_cons_self _ _)
    simp only [process_repo_diff_loop, hres]
    cases hid : roleIdVal r with
    | none => rfl
    | some v =>
      have hlook : old_roles_lookup S v = some r :=
        old_roles_lookup_self hnd hrS hid
      simp only [hlook]
      cases hA : role_is_active r <;> simp [hA]

/-- C5: when the feed's reactivation-support flag (`is_second_repo`) is false,
the diff of any pair of old and new snapshots produces no Reactivated
transition, even for a record whose active flag flipped from false to true
while visible. -/
theorem claim_C5_reactivation_gated :
    ∀ (new_data old_data : List Role),
      (process_repo_diff new_data old_data false).reactivated_roles = [] := by
  intro new_data old_data
  induction new_data with
  | nil => rfl
  | cons r rest ih =>
    simp only [process_repo_diff, process_repo_diff_loop] at *
    cases hid : roleIdVal r with
    | none => exact ih
    | some v =>
      cases hlook : old_roles_lookup old_data v with
      | some old_role =>
        simp only [hlook]
        split
        · simpa using ih
        · split
          · simp at *
          · exact ih
      | none =>
        simp only [hlook]
        split
        · simpa using ih
        · exact ih

/-- C7: diffing a snapshot against itself yields empty New, Deactivated and
Reactivated lists, for either value of the reactivation-support flag.  The
hypothesis is the data-model invariant that identifiers are unique within a
feed; records without an identifier are unconstrained (the diff ignores
them). -/
theorem claim_C7_diff_idempotent (S : List Role) (flag : Bool)
    (hnd : (validIds S).Nodup) :
    process_repo_diff S S flag = ⟨[], [], []⟩ :=
  process_repo_diff_loop_self hnd S (fun _ h => h)

/-- Witness for C7 at a concrete two-record snapshot. -/
theorem claim_C7_diff_idempotent_witness :
    process_repo_diff
      [{ id := some (PyVal.str "1"), active := some (PyVal.bool false) },
       { id := some (PyVal.int 2) }]
      [{ id := some (PyVal.str "1"), active := some (PyVal.bool false) },
       { id := some (PyVal.int 2) }] true = ⟨[], [], []⟩ :=
  claim_C7_diff_idempotent _ true (by decide)

/-- C10: a record whose active or visible field is absent is treated as
active and visible (truthiness applied to a default of `True`); hence a
never-before-seen record carrying only an identifier is classified as New,
and a previously stored record with no active field counts as active when
deciding Deactivated. -/
theorem claim_C10_truthy_defaults :
    (∀ r : Role, r.active = Option.none → role_is_active r = true)
    ∧ (∀ r : Role, r.is_visible = Option.none → role_is_visible r = true)
    ∧ (∀ (r : Role) (old_data : List Role) (flag : Bool) (v : PyVal),
        roleIdVal r = some v → old_roles_lookup old_data v = Option.none →
        r.active = Option.none → r.is_visible = Option.none →
        process_repo_diff [r] old_data flag = ⟨[r], [], []⟩)
    ∧ (∀ (r old_role : Role) (old_data : List Role) (flag : Bool) (v : PyVal),
        roleIdVal r = some v → old_roles_lookup old_data v = some old_role →
        old_role.active = Option.none → role_is_active r = false →
        process_repo_diff [r] old_data flag = ⟨[], [r], []⟩) := by
  refine ⟨?_, ?_, ?_, ?_⟩
  · intro r h; simp [role_is_active, h, _is_value_truthy]
  · intro r h; simp [role_is_visible, h, _is_value_truthy]
  · intro r old_data flag v hid hlook ha hv
    have hA : role_is_active r = true := by simp [role_is_active, ha, _is_value_truthy]
    have hV : role_is_visible r = true := by simp [role_is_visible, hv, _is_value_truthy]
    simp [process_repo_diff, process_repo_diff_loop, hid, hlook, hA, hV]
  · intro r old_role old_data flag v hid hlook ha hA
    have hOA : role_is_active old_role = true := by
      simp [role_is_active, ha, _is_value_truthy]
    simp [process_repo_diff, process_repo_diff_loop, hid, hlook, hA, hOA]

/-- Witness for C10 at a record carrying only the identifier 7. -/
theorem claim_C10_truthy_defaults_witness :
    role_is_active ({ id := some (PyVal.int 7) } : Role) = true
    ∧ role_is_visible ({ id := some (PyVal.int 7) } : Role) = true
    ∧ process_repo_diff [{ id := some (PyVal.int 7) }] [] true
        = ⟨[{ id := some (PyVal.int 7) }], [], []⟩
    ∧ process_repo_diff
        [{ id := some (PyVal.int 7), active := some (PyVal.str "false") }]
        [{ id := some (PyVal.int 7) }] true
        = ⟨[], [{ id := some (PyVal.int 7), active := some (PyVal.str "false") }], []⟩ :=
  ⟨claim_C10_truthy_defaults.1 _ rfl,
   claim_C10_truthy_defaults.2.1 _ rfl,
   claim_C10_truthy_defaults.2.2.1 _ [] true (PyVal.int 7) rfl rfl rfl rfl,
   claim_C10_truthy_defaults.2.2.2 _ { id := some (PyVal.int 7) } _ true (PyVal.int 7)
     rfl (by decide) rfl (by decide)⟩

/-- C8 counterexample: for `season = ["Fall","Winter"]` the code emits the
winter marker followed by the fall marker (the append order of the keyword
checks), not the fall marker followed by the winter marker as the claim
states. -/
theorem claim_C8_counterexample :
    get_term_emoji_and_string { season := some (PyVal.list ["Fall", "Winter"]) }
      ≠ (EMOJI_FALL ++ EMOJI_WINTER, "Fall, Winter") := by
  decide

/-- C8 (amended): a record with neither a season nor a terms field resolves
to "Unknown" paired with the single unknown-term marker, and a record with
`season = ["Fall","Winter"]` resolves to "Fall, Winter" paired with the
winter marker followed by the fall marker, in that order. -/
theorem claim_C8_term_resolution (r : Role) :
    (r.season = Option.none → r.terms = Option.none →
      get_term_emoji_and_string r = (EMOJI_UNKNOWN_TERM, "Unknown"))
    ∧ (r.season = some (PyVal.list ["Fall", "Winter"]) →
      get_term_emoji_and_string r = (EMOJI_WINTER ++ EMOJI_FALL, "Fall, Winter")) := by
  obtain ⟨i, a, v, cn, ti, ur, lo, sp, se, te⟩ := r
  constructor
  · intro h1 h2
    simp only at h1 h2
    subst h1; subst h2
    rfl
  · intro h
    simp only at h
    subst h
    rfl

/-- Witness for C8 at two concrete records. -/
theorem claim_C8_term_resolution_witness :
    get_term_emoji_and_string { } = (EMOJI_UNKNOWN_TERM, "Unknown")
    ∧ get_term_emoji_and_string
        { season := some (PyVal.list ["Fall", "Winter"]),
          terms := some (PyVal.str "ignored") }
        = (EMOJI_WINTER ++ EMOJI_FALL, "Fall, Winter") :=
  ⟨(claim_C8_term_resolution { }).1 rfl rfl,
   (claim_C8_term_resolution _).2 rfl⟩

theorem big_tech_loop_eq_any (name : String) (l : List String) :
    big_tech_loop name l = l.any (fun company =>
      if pyLower company == "x" then pyStartsWith (pyLower name) "x"
      else pyContains (pyLower name) (pyLower company)) := by
  induction l with
  | nil => rfl
  | cons c rest ih =>
    simp only [big_tech_loop, List.any_cons, ih]
    by_cases h : (pyLower c == "x") = true
    · by_cases h2 : pyStartsWith (pyLower name) "x" = true <;> simp [h, h2]
    · by_cases h2 : pyContains (pyLower name) (pyLower c) = true <;> simp [h, h2]

theorem isLeadingSeg_subset {needle l : List Char}
    (h : isLeadingSeg needle l = true) : ∀ c ∈ needle, c ∈ l := by
  induction needle generalizing l with
  | nil => intro c hc; simp at hc
  | cons a as ih =>
    cases l with
    | nil => simp [isLeadingSeg] at h
    | cons b bs =>
      simp only [isLeadingSeg] at h
      by_cases hab : a = b
      · rw [if_pos hab] at h
        intro c hc
        rcases List.mem_cons.mp hc with hca | hcas
        · subst hca; rw [hab]; exact List.mem_cons_self _ _
        · exact List.mem_cons_of_mem _ (ih h c hcas)
      · rw [if_neg hab] at h; simp at h

theorem occursIn_subset {needle hay : List Char}
    (h : occursIn needle hay = true) : ∀ c ∈ needle, c ∈ hay := by
  induction hay with
  | nil =>
    simp only [occursIn, List.isEmpty_iff] at h
    subst h; intro c hc; simp at hc
  | cons b bs ih =>
    simp only [occursIn, Bool.or_eq_true] at h
    rcases h with h | h
    · exact isLeadingSeg_subset h
    · intro c hc; exact List.mem_cons_of_mem _ (ih h c hc)

theorem pyContains_mem {m p : String} {c : Char}
    (h : pyContains m p = true) (hc : c ∈ p.data) : c ∈ m.data :=
  occursIn_subset h c hc

theorem strData_append (a b : String) : (a ++ b).data = a.data ++ b.data := by
  cases a; cases b; rfl

/-- A string containing no occurrence of the given character. -/
def strCharFree (s : String) (c : Char) : Bool :=
  s.data.all (fun x => x ≠ c)

theorem strCharFree_append {a b : String} {c : Char}
    (ha : strCharFree a c = true) (hb : strCharFree b c = true) :
    strCharFree (a ++ b) c = true := by
  simp only [strCharFree, strData_append, List.all_append, Bool.and_eq_true]
  exact ⟨ha, hb⟩

theorem strCharFree_not_mem {s : String} {c : Char}
    (h : strCharFree s c = true) : c ∉ s.data := by
  simp only [strCharFree, List.all_eq_true, decide_eq_true_eq] at h
  intro hmem
  exact h c hmem rfl

theorem pyJoin_charFree {c : Char} {sep : String}
    (hsep : strCharFree sep c = true) :
    ∀ (l : List String), (∀ x ∈ l, strCharFree x c = true) →
      strCharFree (pyJoin sep l) c = true := by
  intro l
  induction l with
  | nil => intro _; rfl
  | cons x rest ih =>
    intro hl
    cases rest with
    | nil => exact hl x (List.mem_cons_self _ _)
    | cons y ys =>
      have hx := hl x (List.mem_cons_self _ _)
      have hrest := ih (fun z hz => hl z (List.mem_cons_of_mem _ hz))
      exact strCharFree_append (strCharFree_append hx hsep) hrest

/-- All strings inside a season/terms field avoid the given character. -/
def optValCharFree (o : Option PyVal) (c : Char) : Bool :=
  match o with
  | some (PyVal.str s) => strCharFree s c
  | some (PyVal.list xs) => xs.all (fun x => strCharFree x c)
  | _ => true

/-- The string of an optional field avoids the given character. -/
def optStrCharFree (o : Option String) (c : Char) : Bool :=
  match o with
  | some s => strCharFree s c
  | Option.none => true

theorem optStrCharFree_getD {o : Option String} {d : String} {c : Char}
    (ho : optStrCharFree o c = true) (hd : strCharFree d c = true) :
    strCharFree (o.getD d) c = true := by
  cases o
  · exact hd
  · exact ho

theorem resolve_season_charFree {se te : Option PyVal}
    (hse : optValCharFree se '@' = true) (hte : optValCharFree te '@' = true) :
    strCharFree (resolve_season_str se te) '@' = true := by
  have hsep : strCharFree ", " '@' = true := by decide
  have hunk : strCharFree "Unknown" '@' = true := by decide
  have main : ∀ (o : Option PyVal), optValCharFree o '@' = true →
      strCharFree
        (match o with
         | some (PyVal.list xs) => if !xs.isEmpty then pyJoin ", " xs else "Unknown"
         | some (PyVal.str s) => if pyStripTruthy s then s else "Unknown"
         | _ => "Unknown") '@' = true := by
    intro o ho
    match o with
    | Option.none => exact hunk
    | some PyVal.none => exact hunk
    | some (PyVal.bool b) => exact hunk
    | some (PyVal.int n) => exact hunk
    | some (PyVal.str s) =>
      by_cases h : pyStripTruthy s = true
      · simpa [h] using ho
      · simp [h, hunk]
    | some (PyVal.list xs) =>
      by_cases h : xs.isEmpty = true
      · simp [h, hunk]
      · simp only [h, Bool.not_false, if_true]
        refine pyJoin_charFree hsep xs ?_
        intro x hx
        simp only [optValCharFree, List.all_eq_true] at ho
        exact ho x hx
  unfold resolve_season_str
  by_cases h1 : optTruthy se = true
  · simpa [h1] using main se hse
  · by_cases h2 : optTruthy te = true
    · simpa [h1, h2] using main te hte
    · simp [h1, h2, hunk]

theorem term_emoji_from_emoji_charFree (s : String) :
    strCharFree (term_emoji_from s).1 '@' = true := by
  unfold term_emoji_from
  by_cases h0 : (s == "" || s == "Unknown") = true
  · simp [h0]; decide
  · simp only [h0, Bool.false_eq_true, if_false]
    by_cases h1 : (pyContains (pyLower s) "summer" || pyContains (pyLower s) "spring") = true <;>
    by_cases h2 : pyContains (pyLower s) "winter" = true <;>
    by_cases h3 : (pyContains (pyLower s) "fall" || pyContains (pyLower s) "autumn") = true <;>
      simp [h1, h2, h3] <;> decide

theorem term_emoji_from_str_charFree {s : String}
    (hs : strCharFree s '@' = true) :
    strCharFree (term_emoji_from s).2 '@' = true := by
  have hunk : strCharFree "Unknown" '@' = true := by decide
  unfold term_emoji_from
  by_cases h0 : (s == "" || s == "Unknown") = true
  · simp [h0, hunk]
  · simp only [h0, Bool.false_eq_true, if_false]
    by_cases h1 : (pyContains (pyLower s) "summer" || pyContains (pyLower s) "spring") = true <;>
    by_cases h2 : pyContains (pyLower s) "winter" = true <;>
    by_cases h3 : (pyContains (pyLower s) "fall" || pyContains (pyLower s) "autumn") = true <;>
      simp [h1, h2, h3, hs]

/-- C9: the mention decision for New and Reactivated events equals the
described watch-list semantics (case-insensitive substring containment, the
wildcard entry "x" matching only by case-insensitive prefix, first match
short-circuiting); a Reactivated event with a configured, truthy mention
target whose resolved term string contains "winter 2026" always carries the
ping token regardless of the watch-list; and a Deactivated message never
contains a mention token "<@&" (given its input fields contain no literal
atsign, the only way one could appear) — indeed `format_deactivation_message`
takes no mention configuration at all. -/
theorem claim_C9_mention_policy :
    (∀ company_name_str : String,
      big_tech_should_ping company_name_str = mention_policy_spec company_name_str)
    ∧ (∀ (company_name_str term_str : String) (guild_id : Nat)
        (guild_ping_roles : List (Nat × Nat)) (rid : Nat),
        List.lookup guild_id guild_ping_roles = some rid → rid ≠ 0 →
        pyContains (pyLower term_str) "winter 2026" = true →
        reactivation_ping_str company_name_str term_str guild_id guild_ping_roles
          = ping_token rid)
    ∧ (∀ (role : Role) (dateStr : String),
        optValCharFree role.season '@' = true →
        optValCharFree role.terms '@' = true →
        optStrCharFree role.company_name '@' = true →
        optStrCharFree role.title '@' = true →
        optStrCharFree role.url '@' = true →
        strCharFree dateStr '@' = true →
        pyContains (format_deactivation_message role dateStr) "<@&" = false) := by
  refine ⟨?_, ?_, ?_⟩
  · intro name
    exact big_tech_loop_eq_any name BIG_TECH_COMPANIES
  · intro c t gid pings rid hlook hrid hwinter
    simp [reactivation_ping_str, hlook, hrid, reactivation_should_ping, hwinter]
  · intro role dateStr h1 h2 h3 h4 h5 h6
    have hmsg : strCharFree (format_deactivation_message role dateStr) '@' = true := by
      simp only [format_deactivation_message]
      repeat' apply strCharFree_append
      all_goals first
        | decide
        | exact optStrCharFree_getD h3 (by decide)
        | exact optStrCharFree_getD h4 (by decide)
        | exact optStrCharFree_getD h5 (by decide)
        | exact h6
        | exact term_emoji_from_emoji_charFree _
        | exact term_emoji_from_str_charFree (resolve_season_charFree h1 h2)
    cases hpc : pyContains (format_deactivation_message role dateStr) "<@&" with
    | false => rfl
    | true =>
      exfalso
      exact strCharFree_not_mem hmsg (pyContains_mem hpc (by decide))

/-- Witness for C9 at concrete inputs. -/
theorem claim_C9_mention_policy_witness :
    big_tech_should_ping "Acme" = mention_policy_spec "Acme"
    ∧ reactivation_ping_str "Acme" "Winter 2026" 1 [(1, 5)] = ping_token 5
    ∧ pyContains
        (format_deactivation_message { company_name := some "Acme" } "Jan 01")
        "<@&" = false :=
  ⟨claim_C9_mention_policy.1 "Acme",
   claim_C9_mention_policy.2.1 "Acme" "Winter 2026" 1 [(1, 5)] 5 rfl
     (by decide) (by decide),
   claim_C9_mention_policy.2.2 { company_name := some "Acme" } "Jan 01"
     rfl rfl (by decide) rfl rfl (by decide)⟩

theorem countsGet_set_self (m : List (String × Nat)) (k : String) (v : Nat) :
    countsGet (countsSet m k v) k = v := by
  induction m with
  | nil => simp [countsSet, countsGet]
  | cons p rest ih =>
    by_cases h : p.1 = k <;> simp [countsSet, countsGet, h, ih]

theorem countsGet_del_self (m : List (String × Nat)) (k : String) :
    countsGet (countsDel m k) k = 0 := by
  induction m with
  | nil => rfl
  | cons p rest ih =>
    by_cases h : p.1 = k
    · simpa [countsDel, h] using ih
    · simpa [countsDel, countsGet, h] using ih

theorem setMem_add_self (s : List String) (k : String) :
    setMem (setAdd s k) k = true := by
  by_cases h : setMem s k = true
  · simp [setAdd, h]
  · simp [setAdd, h, setMem]

theorem setMem_remove_self (s : List String) (k : String) :
    setMem (setRemove s k) k = false := by
  induction s with
  | nil => rfl
  | cons x rest ih =>
    by_cases h : x = k
    · simpa [setRemove, h] using ih
    · simpa [setRemove, setMem, h] using ih

theorem skip_persists {st : ChannelHealthState} {k : String} {o : SendOutcome}
    (h : shouldSkip st k = true) :
    shouldSkip (send_discord_message_model st k o) k = true := by
  simp only [shouldSkip] at h ⊢
  simp [send_discord_message_model, h]

theorem send_retry_eq {st : ChannelHealthState} {k : String} {o : SendOutcome}
    (hns : setMem st.failed_channels k = false) (ho : isRetryable o = true) :
    send_discord_message_model st k o =
      if countsGet st.channel_failure_counts k + 1 ≥ MAX_RETRIES then
        { channel_failure_counts :=
            countsSet st.channel_failure_counts k
              (countsGet st.channel_failure_counts k + 1),
          failed_channels := setAdd st.failed_channels k }
      else
        { channel_failure_counts :=
            countsSet st.channel_failure_counts k
              (countsGet st.channel_failure_counts k + 1),
          failed_channels := st.failed_channels } := by
  cases o with
  | notFound => simp [send_discord_message_model, hns, countsGet_set_self]
  | otherError => simp [send_discord_message_model, hns, countsGet_set_self]
  | success => simp [isRetryable] at ho
  | forbidden => simp [isRetryable] at ho
  | notTextChannel => simp [isRetryable] at ho

theorem retry_counts {st : ChannelHealthState} {k : String} {o : SendOutcome}
    (hns : setMem st.failed_channels k = false) (ho : isRetryable o = true) :
    countsGet (send_discord_message_model st k o).channel_failure_counts k
      = countsGet st.channel_failure_counts k + 1 := by
  rw [send_retry_eq hns ho]
  by_cases h : countsGet st.channel_failure_counts k + 1 ≥ MAX_RETRIES <;>
    simp [h, countsGet_set_self]

theorem retry_skip {st : ChannelHealthState} {k : String} {o : SendOutcome}
    (hns : setMem st.failed_channels k = false) (ho : isRetryable o = true) :
    shouldSkip (send_discord_message_model st k o) k
      = decide (countsGet st.channel_failure_counts k + 1 ≥ MAX_RETRIES) := by
  rw [send_retry_eq hns ho]
  by_cases h : countsGet st.channel_failure_counts k + 1 ≥ MAX_RETRIES <;>
    simp [h, shouldSkip, setMem_add_self, hns]

/-- C3: three consecutive RetryableFailure outcomes recorded for a
destination key make shouldSkip true; once a key is skipped it stays skipped
through any further send attempt (so until a Success is recorded — and a
skipped key records no outcome at all, so in particular no Success ends the
skip within the process); a Success recorded for a non-skipped key resets the
failure counter to zero and leaves the key outside the skip set; and a single
PermanentFailure (authorization failure or a target that is not a text
channel) makes shouldSkip true immediately, regardless of the prior counter
value. -/
theorem claim_C3_circuit_breaker :
    (∀ (st : ChannelHealthState) (k : String) (o₁ o₂ o₃ : SendOutcome),
      isRetryable o₁ = true → isRetryable o₂ = true → isRetryable o₃ = true →
      shouldSkip (send_discord_message_model (send_discord_message_model
        (send_discord_message_model st k o₁) k o₂) k o₃) k = true)
    ∧ (∀ (st : ChannelHealthState) (k : String) (o : SendOutcome),
      shouldSkip st k = true →
      shouldSkip (send_discord_message_model st k o) k = true)
    ∧ (∀ (st : ChannelHealthState) (k : String),
      shouldSkip st k = false →
      countsGet (send_discord_message_model st k
        SendOutcome.success).channel_failure_counts k = 0
      ∧ shouldSkip (send_discord_message_model st k SendOutcome.success) k = false)
    ∧ (∀ (st : ChannelHealthState) (k : String) (o : SendOutcome),
      isPermanent o = true →
      shouldSkip (send_discord_message_model st k o) k = true) := by
  refine ⟨?_, ?_, ?_, ?_⟩
  · intro st k o₁ o₂ o₃ h1 h2 h3
    cases hs0 : shouldSkip st k with
    | true => exact skip_persists (skip_persists (skip_persists hs0))
    | false =>
      cases hs1 : shouldSkip (send_discord_message_model st k o₁) k with
      | true => exact skip_persists (skip_persists hs1)
      | false =>
        have hc1 : countsGet (send_discord_message_model st k
            o₁).channel_failure_counts k
            = countsGet st.channel_failure_counts k + 1 :=
          retry_counts hs0 h1
        cases hs2 : shouldSkip (send_discord_message_model
            (send_discord_message_model st k o₁) k o₂) k with
        | true => exact skip_persists hs2
        | false =>
          have hc2 : countsGet (send_discord_message_model
              (send_discord_message_model st k o₁) k
              o₂).channel_failure_counts k
              = countsGet st.channel_failure_counts k + 2 := by
            rw [retry_counts hs1 h2, hc1]
          rw [retry_skip hs2 h3, hc2]
          simp [MAX_RETRIES]
  · intro st k o h
    exact skip_persists h
  · intro st k h
    have hns : setMem st.failed_channels k = false := h
    constructor
    · simp [send_discord_message_model, hns, countsGet_del_self, MAX_RETRIES]
    · simp [send_discord_message_model, hns, countsGet_del_self, MAX_RETRIES,
        shouldSkip, setMem_remove_self]
  · intro st k o ho
    cases hs : shouldSkip st k with
    | true => exact skip_persists hs
    | false =>
      have hns : setMem st.failed_channels k = false := hs
      cases o with
      | forbidden =>
        simp only [send_discord_message_model, hns, Bool.false_eq_true,
          if_false]
        by_cases hth : countsGet st.channel_failure_counts k ≥ MAX_RETRIES <;>
          simp [hth, shouldSkip, setMem_add_self]
      | notTextChannel =>
        simp only [send_discord_message_model, hns, Bool.false_eq_true,
          if_false]
        by_cases hth : countsGet (countsSet st.channel_failure_counts k
            (countsGet st.channel_failure_counts k + MAX_RETRIES)) k
            ≥ MAX_RETRIES <;>
          simp [hth, shouldSkip, setMem_add_self]
      | success => simp [isPermanent] at ho
      | notFound => simp [isPermanent] at ho
      | otherError => simp [isPermanent] at ho

/-- Witness for C3 at concrete states and the key "1:10". -/
theorem claim_C3_circuit_breaker_witness :
    shouldSkip (send_discord_message_model (send_discord_message_model
      (send_discord_message_model ⟨[], []⟩ (channelKey 1 10)
        SendOutcome.notFound) (channelKey 1 10) SendOutcome.otherError)
      (channelKey 1 10) SendOutcome.notFound) (channelKey 1 10) = true
    ∧ shouldSkip (send_discord_message_model ⟨[], [channelKey 1 10]⟩
        (channelKey 1 10) SendOutcome.notFound) (channelKey 1 10) = true
    ∧ (countsGet (send_discord_message_model ⟨[(channelKey 1 10, 2)], []⟩
        (channelKey 1 10) SendOutcome.success).channel_failure_counts
        (channelKey 1 10) = 0
      ∧ shouldSkip (send_discord_message_model ⟨[(channelKey 1 10, 2)], []⟩
        (channelKey 1 10) SendOutcome.success) (channelKey 1 10) = false)
    ∧ shouldSkip (send_discord_message_model ⟨[], []⟩ (channelKey 1 10)
        SendOutcome.forbidden) (channelKey 1 10) = true :=
  ⟨claim_C3_circuit_breaker.1 ⟨[], []⟩ (channelKey 1 10) _ _ _ rfl rfl rfl,
   claim_C3_circuit_breaker.2.1 ⟨[], [channelKey 1 10]⟩ (channelKey 1 10)
     SendOutcome.notFound (by decide),
   claim_C3_circuit_breaker.2.2.1 ⟨[(channelKey 1 10, 2)], []⟩
     (channelKey 1 10) (by decide),
   claim_C3_circuit_breaker.2.2.2 ⟨[], []⟩ (channelKey 1 10)
     SendOutcome.forbidden rfl⟩

theorem scheduler_step_inv {s : SchedulerState} {e : SchedulerEvent}
    (h : scheduler_inv s = true) : scheduler_inv (scheduler_step s e) = true := by
  obtain ⟨g, n⟩ := s
  cases e <;> cases g <;>
    simp_all [scheduler_inv, scheduler_step, combined_try_start,
      combined_finish]
  all_goals omega

theorem scheduler_run_inv {s : SchedulerState}
    (h : scheduler_inv s = true) :
    ∀ evs : List SchedulerEvent, scheduler_inv (scheduler_run s evs) = true := by
  intro evs
  induction evs generalizing s with
  | nil => exact h
  | cons e rest ih => exact ih (scheduler_step_inv h)

/-- C4: along every event sequence from the initial state at most one cycle
body executes at a time and the guard is set exactly while one does; a tick
arriving while the guard is set is dropped with no state change (nothing is
queued); and the guard is cleared whenever the cycle body finishes, whether
normally or by an escaping exception. -/
theorem claim_C4_cycle_guard :
    (∀ evs : List SchedulerEvent,
      scheduler_inv (scheduler_run scheduler_init evs) = true)
    ∧ (∀ s : SchedulerState, s.is_task_running = true →
      scheduler_step s SchedulerEvent.tick = s)
    ∧ (∀ (s : SchedulerState) (e : SchedulerEvent), e ≠ SchedulerEvent.tick →
      (scheduler_step s e).is_task_running = false) := by
  refine ⟨?_, ?_, ?_⟩
  · exact scheduler_run_inv rfl
  · intro s h
    simp [scheduler_step, combined_try_start, h]
  · intro s e he
    cases e with
    | tick => exact absurd rfl he
    | finishOk => rfl
    | finishRaise => rfl

/-- Witness for C4 on a concrete event sequence with an overlapping tick and
a raising cycle. -/
theorem claim_C4_cycle_guard_witness :
    scheduler_inv (scheduler_run scheduler_init
      [SchedulerEvent.tick, SchedulerEvent.tick, SchedulerEvent.finishRaise,
       SchedulerEvent.tick]) = true
    ∧ scheduler_step ⟨true, 1⟩ SchedulerEvent.tick = ⟨true, 1⟩
    ∧ (scheduler_step ⟨true, 1⟩ SchedulerEvent.finishRaise).is_task_running
        = false :=
  ⟨claim_C4_cycle_guard.1 _,
   claim_C4_cycle_guard.2.1 ⟨true, 1⟩ rfl,
   claim_C4_cycle_guard.2.2 ⟨true, 1⟩ SchedulerEvent.finishRaise (by decide)⟩

/-- C6: when the fetch for a feed yields an empty list, the feed is skipped
for the cycle: no diff, no dispatch event, and the stored snapshot file is
unchanged; and every fetch failure (HTTP error, parse error, other
exception) yields the empty list. -/
theorem claim_C6_empty_fetch_skips_feed :
    (∀ (fr : FetchResult) (files : FeedFiles) (is_second_repo : Bool)
       (channel_configs : List (Nat × Nat)) (failed_channels : List String)
       (guild_ping_roles : List (Nat × Nat)) (dateStr : String)
       (writeOk : Bool),
      fetch_json_value fr = [] →
      combined_task_feed_step fr files is_second_repo channel_configs
        failed_channels guild_ping_roles dateStr writeOk = ⟨files, []⟩)
    ∧ fetch_json_value FetchResult.httpError = []
    ∧ fetch_json_value FetchResult.parseError = []
    ∧ fetch_json_value FetchResult.exn = [] := by
  refine ⟨?_, rfl, rfl, rfl⟩
  intro fr files flag cfgs failed pings dateStr writeOk h
  simp [combined_task_feed_step, h]

/-- Witness for C6 at a fetch returning the empty list over a non-empty
stored snapshot. -/
theorem claim_C6_empty_fetch_skips_feed_witness :
    combined_task_feed_step (FetchResult.ok [])
      ⟨FileState.content [{ id := some (PyVal.int 1) }], FileState.absent⟩
      true [(1, 10)] [] [(1, 5)] "Jan 01" true
      = ⟨⟨FileState.content [{ id := some (PyVal.int 1) }], FileState.absent⟩, []⟩ :=
  claim_C6_empty_fetch_skips_feed.1 (FetchResult.ok [])
    ⟨FileState.content [{ id := some (PyVal.int 1) }], FileState.absent⟩
    true [(1, 10)] [] [(1, 5)] "Jan 01" true rfl

theorem pendingAfter_append (a b : List DispatchEvent) (n : Nat) :
    pendingAfter n (a ++ b) = pendingAfter (pendingAfter n a) b := by
  induction a generalizing n with
  | nil => rfl
  | cons e rest ih =>
    cases e <;> simp [pendingAfter, ih]

theorem pendingAfter_spawn_map (l : List (Nat × Nat)) (msg : String) (n : Nat) :
    pendingAfter n (l.map (fun p => DispatchEvent.spawnSend p.1 p.2 msg))
      = n + l.length := by
  induction l generalizing n with
  | nil => rfl
  | cons p rest ih => simp [pendingAfter, ih]; omega

/-- C1 (amended): `send_messages_to_all_configured_channels` awaits (via
`asyncio.gather`) every send it issued before returning; but
`process_repo_updates` spawns its per-transition send tasks fire-and-forget
— its dispatch sequence contains no join at all — and still performs the
snapshot write, so sends are not awaited before the snapshot is
overwritten. -/
theorem claim_C1_amended_join :
    (∀ (message : String) (channel_configs : List (Nat × Nat))
       (failed_channels : List String),
      allSpawnsJoined
        (send_messages_to_all_trace message channel_configs failed_channels)
        = true)
    ∧ (∀ (new_data old_data : List Role) (is_second_repo : Bool)
        (channel_configs : List (Nat × Nat)) (failed_channels : List String)
        (guild_ping_roles : List (Nat × Nat)) (dateStr : String)
        (writeOk : Bool) (files : FeedFiles),
        noJoinEvent ((process_repo_updates_model new_data old_data
          is_second_repo channel_configs failed_channels guild_ping_roles
          dateStr writeOk files).trace) = true
        ∧ DispatchEvent.persist ∈ (process_repo_updates_model new_data old_data
          is_second_repo channel_configs failed_channels guild_ping_roles
          dateStr writeOk files).trace) := by
  constructor
  · intro message cfgs failed
    unfold send_messages_to_all_trace
    by_cases h0 : cfgs = []
    · simp [h0, allSpawnsJoined, pendingAfter]
    · simp only [h0, if_false]
      by_cases h1 : (activeChannels cfgs failed).map
          (fun p => DispatchEvent.spawnSend p.1 p.2 message) = []
      · simp [h1, allSpawnsJoined, pendingAfter]
      · simp only [h1, if_false, if_neg]
        simp [allSpawnsJoined, pendingAfter_append, pendingAfter_spawn_map,
          pendingAfter]
  · intro new_data old_data flag cfgs failed pings dateStr writeOk files
    constructor
    · simp only [process_repo_updates_model, process_repo_updates_trace,
        noJoinEvent, List.all_eq_true, decide_eq_true_eq]
      intro e he
      simp only [List.mem_append, List.mem_flatten, List.mem_map] at he
      rcases he with ((⟨l, ⟨r, _, hl⟩, hel⟩ | ⟨r, _, he⟩) | he) | he
      · subst hl
        simp only [List.mem_map] at hel
        obtain ⟨p, _, he⟩ := hel
        subst he; simp
      · subst he; simp
      · by_cases hf : flag = true
        · simp only [hf, if_true, List.mem_flatten, List.mem_map] at he
          obtain ⟨l, ⟨r, _, hl⟩, hel⟩ := he
          subst hl
          simp only [List.mem_map] at hel
          obtain ⟨p, _, he⟩ := hel
          subst he; simp
        · simp only [Bool.not_eq_true] at hf
          simp [hf] at he
      · simp only [List.mem_singleton] at he
        subst he; simp
    · simp [process_repo_updates_model, process_repo_updates_trace]

/-- C1 counterexample: with one new listing and one configured destination,
`process_repo_updates` reaches the snapshot write while its one spawned send
task has not been awaited, refuting the claim that every transition has its
send attempted (joined) before the feed snapshot is overwritten. -/
theorem claim_C1_counterexample :
    joinedBeforePersist 0
      ((process_repo_updates_model [{ id := some (PyVal.int 2) }] [] false
        [(1, 10)] [] [] "Jan 01" true
        ⟨FileState.absent, FileState.absent⟩).trace) = false := by
  decide

/-- C2 counterexample: the bot per-cycle persist in `process_repo_updates`
(open with mode 'w', dump, log IOError) applied to a feed whose snapshot file
held baseline data leaves, on a failed write, a truncated file that is
neither the old nor the new baseline — no backup was taken or restored,
refuting the claim for this persist path. -/
theorem claim_C2_counterexample :
    (mainbot_persist [{ id := some (PyVal.int 2) }] false
      ⟨FileState.content [{ id := some (PyVal.int 1) }], FileState.absent⟩).main
      = FileState.corrupt
    ∧ FileState.corrupt ≠ FileState.content [{ id := some (PyVal.int 1) }]
    ∧ FileState.corrupt ≠ FileState.content [{ id := some (PyVal.int 2) }] := by
  exact ⟨rfl, by decide, by decide⟩

/-- C2 (amended): the fetch script `save_json_data` renames the existing
snapshot aside as a backup before writing and restores it when the write
fails, so that path never leaves a feed with zero baseline data; the bot
per-cycle persist in `process_repo_updates`, however, writes in place with
no backup: a failed write there leaves a corrupt snapshot file (and never
touches the backup file). -/
theorem claim_C2_amended_persistence :
    (∀ (data : List Role) (files : FeedFiles) (d0 : List Role),
      files.main = FileState.content d0 →
      (save_json_data data true files).1
        = ⟨FileState.content data, FileState.content d0⟩)
    ∧ (∀ (data : List Role) (files : FeedFiles) (d0 : List Role),
      files.main = FileState.content d0 →
      (save_json_data data false files).1.main = FileState.content d0)
    ∧ (∀ (data : List Role) (files : FeedFiles),
      (mainbot_persist data false files).main = FileState.corrupt
      ∧ (mainbot_persist data false files).backup = files.backup) := by
  refine ⟨?_, ?_, ?_⟩
  · intro data files d0 h
    simp [save_json_data, h]
  · intro data files d0 h
    simp [save_json_data, h]
  · intro data files
    exact ⟨rfl, rfl⟩

/-- Witness for C2 at a concrete one-record baseline. -/
theorem claim_C2_amended_persistence_witness :
    (save_json_data [{ id := some (PyVal.int 2) }] true
      ⟨FileState.content [{ id := some (PyVal.int 1) }], FileState.absent⟩).1
      = ⟨FileState.content [{ id := some (PyVal.int 2) }],
         FileState.content [{ id := some (PyVal.int 1) }]⟩
    ∧ (save_json_data [{ id := some (PyVal.int 2) }] false
      ⟨FileState.content [{ id := some (PyVal.int 1) }], FileState.absent⟩).1.main
      = FileState.content [{ id := some (PyVal.int 1) }] :=
  ⟨claim_C2_amended_persistence.1 [{ id := some (PyVal.int 2) }]
     ⟨FileState.content [{ id := some (PyVal.int 1) }], FileState.absent⟩
     [{ id := some (PyVal.int 1) }] rfl,
   claim_C2_amended_persistence.2.1 [{ id := some (PyVal.int 2) }]
     ⟨FileState.content [{ id := some (PyVal.int 1) }], FileState.absent⟩
     [{ id := some (PyVal.int 1) }] rfl⟩
